import Mathlib

/-
Verification of the Finscreener MCP API client (src/api_client.py) against
its natural-language specification.

The embedding models decoded JSON values (as produced by Python json.loads;
JSON null decodes to the Python None object, so `Json.null` plays both
roles), the mutable client state of FinscreenerClient, the credential
manager `_ensure_jwt_token`, the request executor `request`, and the
display projection `format_response`.  Network interactions are modelled by
passing the upstream outcome (status, decoded-or-undecodable body, raw
text, or a transport error) as an explicit argument; every point where the
Python source can raise inside a try/except is folded into the
corresponding handler branch, and the one place where an exception can
escape (format_response on a truthy non-dict rate_limit value) is modelled
with Except.
-/

namespace Finscreener

/-- JSON-like values as decoded by Python json.loads.  `null` also stands
for the Python None object (json.loads maps JSON null to None). -/
inductive Json where
  | null : Json
  | bool (b : Bool) : Json
  | num (n : Int) : Json
  | str (s : String) : Json
  | arr (items : List Json) : Json
  | obj (fields : List (String × Json)) : Json

/-- Python truthiness of a decoded JSON value (None, False, 0, "", [] and
\x7b\x7d are falsy). -/
def jsonTruthy : Json → Bool
  | Json.null => false
  | Json.bool b => b
  | Json.num n => n != 0
  | Json.str s => s != ""
  | Json.arr items => !items.isEmpty
  | Json.obj fields => !fields.isEmpty

/-- Character-level leading-sequence test: charsLead p s is true when p
is an initial segment of s. -/
def charsLead : List Char → List Char → Bool
  | [], _ => true
  | _ :: _, [] => false
  | a :: as, b :: bs => a == b && charsLead as bs

/-- Python str.startswith(pre), as a test on the character sequences of
the two strings. -/
def pyStartsWith (s pre : String) : Bool :=
  charsLead pre.data s.data

/-- Key lookup in a decoded JSON object (Python dict indexing / `in`);
`none` means the key is absent. -/
def lookupField : List (String × Json) → String → Option Json
  | [], _ => none
  | (k, v) :: rest, key => if k = key then some v else lookupField rest key

/-- Python dict.get(key, default) on a decoded JSON object: the stored
value (which may be Json.null, i.e. Python None) when the key is present,
else the default. -/
def pyGet (fields : List (String × Json)) (key : String) (dflt : Json) : Json :=
  (lookupField fields key).getD dflt

/-- Python repr() of a decoded JSON value (container rendering used by
str() on lists and dicts). -/
def pyRepr : Json → String
  | Json.null => "None"
  | Json.bool b => cond b "True" "False"
  | Json.num n => toString n
  | Json.str s => "\x27" ++ s ++ "\x27"
  | Json.arr items =>
      "[" ++ String.intercalate ", " (items.attach.map (fun x => pyRepr x.1)) ++ "]"
  | Json.obj fields =>
      "\x7b" ++ String.intercalate ", "
        (fields.attach.map (fun kv => "\x27" ++ kv.1.1 ++ "\x27: " ++ pyRepr kv.1.2))
      ++ "\x7d"
decreasing_by
  · have h := List.sizeOf_lt_of_mem x.2
    simp only [Json.arr.sizeOf_spec]
    omega
  · obtain ⟨⟨k, v⟩, hmem⟩ := kv
    have h := List.sizeOf_lt_of_mem hmem
    simp only [Prod.mk.sizeOf_spec] at h
    simp only [Json.obj.sizeOf_spec]
    omega

/-- Python str() of a decoded JSON value, as used by f-string
interpolation in the source: identity on strings, repr-style rendering on
everything else. -/
def pyStr : Json → String
  | Json.str s => s
  | j => pyRepr j

/-- A UTC timestamp with the field structure of Python datetime: days
since some epoch (absorbing year/month/day), hour, minute, second,
microsecond.  Values built by the code keep minute in 0..59. -/
structure PyDateTime where
  day : Nat
  hour : Nat
  minute : Nat
  second : Nat
  micro : Nat
deriving DecidableEq

/-- Total microseconds represented by the timestamp; datetime comparison
and "exactly n minutes later" are expressed through it. -/
def PyDateTime.toMicro (t : PyDateTime) : Nat :=
  (((t.day * 24 + t.hour) * 60 + t.minute) * 60 + t.second) * 1000000 + t.micro

/-- Python `<` on aware datetimes. -/
def pyLt (a b : PyDateTime) : Bool :=
  a.toMicro < b.toMicro

/-- Python datetime.replace(minute=m): the timestamp with only the minute
field changed, or none (ValueError) when m is outside 0..59. -/
def PyDateTime.replaceMinute (t : PyDateTime) (m : Nat) : Option PyDateTime :=
  if m ≤ 59 then some { t with minute := m } else none

/-- The mutable state of a FinscreenerClient: api_key and api_base are set
at construction; _jwt_token is a Python value (None when absent, hence
Json), _token_expires_at an optional datetime, _rate_limit_info a decoded
JSON value starting as the empty dict. -/
structure ClientState where
  apiKey : String
  apiBase : String
  jwt : Json := Json.null
  tokenExpiresAt : Option PyDateTime := none
  rateLimitInfo : Json := Json.obj []

/-- Outcome of the one POST to the token-exchange endpoint:
a response with status, decoded body (.error = response.json() raises,
carrying the exception text) and raw text, or a transport/other error
raised by the call itself. -/
inductive ExchangeOutcome where
  | resp (status : Nat) (body : Except String Json) (text : String) : ExchangeOutcome
  | err : ExchangeOutcome

/-- The early-return guard of _ensure_jwt_token (lines 48-50): a truthy
_jwt_token, a non-None _token_expires_at, and now strictly before it. -/
def tokenValid (s : ClientState) (now : PyDateTime) : Bool :=
  jsonTruthy s.jwt &&
    (match s.tokenExpiresAt with
     | some e => pyLt now e
     | none => false)

/-- The exchange block of _ensure_jwt_token (lines 61-88).  On a 200
response the body is unwrapped one level via data.get("token", data);
a non-dict at either level raises AttributeError which the enclosing
except swallows with the state unchanged.  The access token is assigned
to _jwt_token unconditionally (line 72), and only then, if truthy, the
expiry is computed with datetime.replace(minute=minute+50), whose
ValueError (minute+50 > 59) is swallowed by the same except, leaving
_token_expires_at unset while the token is already stored. -/
def exchange (s : ClientState) (now : PyDateTime) (o : ExchangeOutcome) : ClientState :=
  match o with
  | ExchangeOutcome.err => s
  | ExchangeOutcome.resp status body _ =>
    if status = 200 then
      match body with
      | Except.error _ => s
      | Except.ok data =>
        match data with
        | Json.obj fields =>
          match pyGet fields "token" (Json.obj fields) with
          | Json.obj tfields =>
            let tok := pyGet tfields "access_token" Json.null
            if jsonTruthy tok then
              match now.replaceMinute (now.minute + 50) with
              | some e => { s with jwt := tok, tokenExpiresAt := some e }
              | none => { s with jwt := tok }
            else { s with jwt := tok }
          | _ => s
        | _ => s
    else s

/-- _ensure_jwt_token (lines 45-88): returns the new state and the number
of network calls performed (0 or 1). -/
def ensureToken (s : ClientState) (now : PyDateTime) (o : ExchangeOutcome) :
    ClientState × Nat :=
  if tokenValid s now then (s, 0)
  else if s.apiKey = "" then (s, 0)
  else if pyStartsWith s.apiKey "fsk_" then (exchange s now o, 1)
  else ({ s with jwt := Json.str s.apiKey }, 0)

/-- _get_headers (lines 90-98). -/
def getHeaders (s : ClientState) : List (String × String) :=
  let base := [("Content-Type", "application/json"), ("Accept", "application/json")]
  if jsonTruthy s.jwt then base ++ [("Authorization", "Bearer " ++ pyStr s.jwt)]
  else base

/-- Outcome of the one HTTP call made by request: a response (status,
decoded-or-undecodable body, raw text), a timeout, a transport error, or
any other exception raised during the call, with its message. -/
inductive ReqOutcome where
  | resp (status : Nat) (body : Except String Json) (text : String) : ReqOutcome
  | timeout : ReqOutcome
  | transportErr (msg : String) : ReqOutcome
  | otherErr (msg : String) : ReqOutcome

/-- URL construction of request (lines 126-130): prepend "/api" exactly
when the prefix flag is set and the endpoint does not already start with
"/api" (a plain string-prefix test), then concatenate onto the base. -/
def buildUrl (base : String) (endpoint : String) (usePfx : Bool) : String :=
  let ep := if usePfx && !(pyStartsWith endpoint "/api") then "/api" ++ endpoint
            else endpoint
  base ++ ep

/-- A generic failure dictionary \x7b"success": False, "error": msg\x7d. -/
def errResult (msg : String) : Json :=
  Json.obj [("success", Json.bool false), ("error", Json.str msg)]

/-- The 429 handler (lines 149-163).  The bare except covers an
undecodable body as well as the AttributeError raised by .get on a
non-dict body or a non-dict (or None) detail value.  Note the code reads
the snake_case key "resets_at" from the body. -/
def handle429 (body : Except String Json) : Json :=
  match body with
  | Except.error _ => errResult "Rate limit exceeded. Try again tomorrow."
  | Except.ok bj =>
    match bj with
    | Json.obj fields =>
      match pyGet fields "detail" (Json.obj []) with
      | Json.obj dfields =>
        Json.obj
          [("success", Json.bool false),
           ("error", Json.str ("Rate limit exceeded: "
              ++ pyStr (pyGet dfields "message" (Json.str "Daily limit reached")))),
           ("rate_limit", Json.obj
              [("limit", pyGet dfields "limit" (Json.num 100)),
               ("used", pyGet dfields "used" (Json.num 100)),
               ("resets_at", pyGet dfields "resets_at" (Json.str "End of day"))])]
      | _ => errResult "Rate limit exceeded. Try again tomorrow."
    | _ => errResult "Rate limit exceeded. Try again tomorrow."

/-- The non-429 error handler (lines 166-176): error_detail starts as the
raw text and is replaced by detail-or-message from a decodable dict body
(the except:pass keeps the raw text otherwise). -/
def handleErrStatus (status : Nat) (body : Except String Json) (text : String) : Json :=
  let detail : Json :=
    match body with
    | Except.ok (Json.obj fields) =>
        pyGet fields "detail" (pyGet fields "message" (Json.str text))
    | _ => Json.str text
  errResult ("API Error (" ++ toString status ++ "): " ++ pyStr detail)

/-- The response-classification block of request (lines 137-192), acting
on the post-ensureToken state: 429 first, then any status >= 400, then
the success path, which decodes the body (a decode failure falls into the
generic except Exception branch), opportunistically stores a top-level
"rate_limit" entry into _rate_limit_info, and returns the decoded body
verbatim; timeouts, transport errors and other exceptions each yield
their failure dictionary. -/
def handleOutcome (s1 : ClientState) (out : ReqOutcome) : ClientState × Json :=
  match out with
  | ReqOutcome.resp status body text =>
    if status = 429 then (s1, handle429 body)
    else if 400 ≤ status then (s1, handleErrStatus status body text)
    else
      match body with
      | Except.error e => (s1, errResult ("Unexpected error: " ++ e))
      | Except.ok result =>
        match result with
        | Json.obj fields =>
          (match lookupField fields "rate_limit" with
           | some v => { s1 with rateLimitInfo := v }
           | none => s1,
           Json.obj fields)
        | _ => (s1, result)
  | ReqOutcome.timeout => (s1, errResult "Request timed out. Try with a simpler query.")
  | ReqOutcome.transportErr m => (s1, errResult ("Request failed: " ++ m))
  | ReqOutcome.otherErr m => (s1, errResult ("Unexpected error: " ++ m))

/-- request (lines 104-192): build the URL, run _ensure_jwt_token (whose
exchange outcome is the ex argument), then classify the HTTP outcome.
Returns (new state, url, result value).  The embedding is a total
function: every exception point of the source body is inside a
try/except whose handler appears as a branch here, so no fault crosses
the boundary. -/
def request (s : ClientState) (endpoint : String) (usePfx : Bool)
    (now : PyDateTime) (ex : ExchangeOutcome) (out : ReqOutcome) :
    ClientState × String × Json :=
  let url := buildUrl s.apiBase endpoint usePfx
  let s1 := (ensureToken s now ex).1
  let hres := handleOutcome s1 out
  (hres.1, url, hres.2)

/-- Two-space indentation padding used by json.dumps(..., indent=2). -/
def pad (n : Nat) : String :=
  String.mk (List.replicate n ' ')

/-- json.dumps(value, indent=2, default=str) on a decoded JSON value. -/
def dumpsAux (lvl : Nat) : Json → String
  | Json.null => "null"
  | Json.bool b => cond b "true" "false"
  | Json.num n => toString n
  | Json.str s => "\"" ++ s ++ "\""
  | Json.arr [] => "[]"
  | Json.arr items =>
      "[\n"
      ++ String.intercalate ",\n"
           (items.attach.map (fun x => pad ((lvl + 1) * 2) ++ dumpsAux (lvl + 1) x.1))
      ++ "\n" ++ pad (lvl * 2) ++ "]"
  | Json.obj [] => "\x7b\x7d"
  | Json.obj fields =>
      "\x7b\n"
      ++ String.intercalate ",\n"
           (fields.attach.map (fun kv =>
              pad ((lvl + 1) * 2) ++ "\"" ++ kv.1.1 ++ "\": " ++ dumpsAux (lvl + 1) kv.1.2))
      ++ "\n" ++ pad (lvl * 2) ++ "\x7d"
termination_by j => sizeOf j
decreasing_by
  · have h := List.sizeOf_lt_of_mem x.2
    simp only [Json.arr.sizeOf_spec]
    omega
  · obtain ⟨⟨k, v⟩, hmem⟩ := kv
    have h := List.sizeOf_lt_of_mem hmem
    simp only [Prod.mk.sizeOf_spec] at h
    simp only [Json.obj.sizeOf_spec]
    omega

/-- json.dumps(value, indent=2, default=str) at top level. -/
def jsonDumps (j : Json) : String :=
  dumpsAux 0 j

/-- Python `x == False` as used on data.get("success"): true for the
stored values False and 0 (Python bools are ints), false for a missing
key (None == False is False) and everything else. -/
def pyEqFalseOpt : Option Json → Bool
  | some (Json.bool false) => true
  | some (Json.num 0) => true
  | _ => false

/-- Whether a decoded JSON value is the Python None object. -/
def isNull : Json → Bool
  | Json.null => true
  | _ => false

/-- The per-item rendering of the list branch of format_response (lines
249-253): keep fields whose value is not None and whose key is neither
"_id" nor "id", rendered as markdown key: value pairs. -/
def itemParts (fields : List (String × Json)) : List String :=
  (fields.filter (fun kv => !(isNull kv.2) && kv.1 != "_id" && kv.1 != "id")).map
    (fun kv => "**" ++ kv.1 ++ "**: " ++ pyStr kv.2)

/-- The "\n".join(output) if output else "No data available." tail of
format_response (line 266). -/
def joinOut (xs : List String) : String :=
  if xs.isEmpty then "No data available." else String.intercalate "\n" xs

/-- The body of format_response after the success/error and "data"
unwrapping steps (lines 238-266).  The empty-list branch returns its
sentinel before the title header is ever used. -/
def formatBody (data : Json) (title : String) : Except String String :=
  let output0 : List String := if title ≠ "" then ["## " ++ title ++ "\n"] else []
  match data with
  | Json.arr [] => Except.ok "No results found."
  | Json.arr items =>
      let lines := items.enum.map (fun p =>
        match p.2 with
        | Json.obj ifields =>
            toString (p.1 + 1) ++ ". " ++ String.intercalate " | " ((itemParts ifields).take 4)
        | item => toString (p.1 + 1) ++ ". " ++ pyStr item)
      Except.ok (joinOut (output0 ++ lines))
  | Json.obj fields =>
      let lines := (fields.filter (fun kv => !(isNull kv.2))).map (fun kv =>
        match kv.2 with
        | Json.obj _ => "**" ++ kv.1 ++ "**: " ++ jsonDumps kv.2
        | Json.arr _ => "**" ++ kv.1 ++ "**: " ++ jsonDumps kv.2
        | v => "**" ++ kv.1 ++ "**: " ++ pyStr v)
      Except.ok (joinOut (output0 ++ lines))
  | other => Except.ok (joinOut (output0 ++ [pyStr other]))

/-- format_response (lines 216-266).  The result is Except because the
error branch calls rate_limit.get on a truthy rate_limit value, which
raises AttributeError (uncaught) when that value is not a dict; every
other path returns a string. -/
def format_response (data : Json) (title : String) : Except String String :=
  match data with
  | Json.obj fields =>
    if pyEqFalseOpt (lookupField fields "success") then
      let errorMsg := pyGet fields "error" (Json.str "Unknown error")
      let rateLimit := pyGet fields "rate_limit" Json.null
      if jsonTruthy rateLimit then
        match rateLimit with
        | Json.obj rfields =>
            Except.ok ("Error: " ++ pyStr errorMsg
              ++ "\n\nRate Limit Info:\n- Daily Limit: "
              ++ pyStr (pyGet rfields "limit" (Json.num 100))
              ++ "\n- Used Today: "
              ++ pyStr (pyGet rfields "used" (Json.num 0))
              ++ "\n- Resets: "
              ++ pyStr (pyGet rfields "resets_at" (Json.str "End of day")))
        | _ => Except.error "AttributeError"
      else Except.ok ("Error: " ++ pyStr errorMsg)
    else
      match lookupField fields "data" with
      | some inner => formatBody inner title
      | none => formatBody (Json.obj fields) title
  | other => formatBody other title

/-! Concrete sample values used by the witnesses and counterexamples. -/

/-- A freshly constructed client with an exchangeable key. -/
def sampleClient : ClientState :=
  { apiKey := "fsk_demo", apiBase := "https://api.finscreener.in" }

/-- A current time whose minute field is 30 (so minute + 50 = 80 > 59). -/
def tMin30 : PyDateTime := ⟨19723, 12, 30, 0, 0⟩

/-- A current time whose minute field is 5 (so minute + 50 = 55 ≤ 59). -/
def tMin05 : PyDateTime := ⟨19723, 12, 5, 0, 0⟩

/-- A current time whose minute field is 45, hour 9. -/
def tMin45 : PyDateTime := ⟨19723, 9, 45, 0, 0⟩

/-- A successful exchange response carrying a flat access token. -/
def okBody : ExchangeOutcome :=
  ExchangeOutcome.resp 200 (Except.ok (Json.obj [("access_token", Json.str "jwt-tok")])) ""

/-- A successful exchange response carrying another flat access token. -/
def okBody2 : ExchangeOutcome :=
  ExchangeOutcome.resp 200 (Except.ok (Json.obj [("access_token", Json.str "tok2")])) ""

/-- A client holding an exchange-derived token whose expiry (11:00) is in
the past relative to tMin30 (12:30). -/
def staleState : ClientState :=
  { apiKey := "fsk_demo", apiBase := "https://x",
    jwt := Json.str "old-token", tokenExpiresAt := some ⟨19723, 11, 0, 0, 0⟩ }

/-- A 200 exchange response whose decoded body is an empty dict: no
wrapper field and no access_token field. -/
def emptyOk200 : ExchangeOutcome :=
  ExchangeOutcome.resp 200 (Except.ok (Json.obj [])) ""

/-- A client configured with a key that does not look exchangeable. -/
def passClient : ClientState :=
  { apiKey := "raw.jwt.tok", apiBase := "https://x" }

/-- The 429 body of spec property P5, with its camelCase resetsAt key. -/
def body429 : Except String Json :=
  Except.ok (Json.obj [("detail", Json.obj
    [("message", Json.str "Daily limit reached"), ("limit", Json.num 100),
     ("used", Json.num 100), ("resetsAt", Json.str "2024-01-02T00:00:00Z")])])

/-- The 429 upstream outcome built from body429. -/
def out429 : ReqOutcome := ReqOutcome.resp 429 body429 "rate limited"

/-- The result value returned by request for the out429 outcome. -/
def r3 : Json :=
  (request sampleClient "/company/details" true tMin30 okBody out429).2.2

/-- The rate_limit entry of a failure dictionary (None when absent). -/
def rateLimitOf (j : Json) : Json :=
  match j with
  | Json.obj f => pyGet f "rate_limit" Json.null
  | _ => Json.null

/-- The error entry of a failure dictionary (None when absent). -/
def errorTextOf (j : Json) : Json :=
  match j with
  | Json.obj f => pyGet f "error" Json.null
  | _ => Json.null

/-! Claim theorems. -/

/-- C9: for every title string, including a non-empty one, projecting the
success result \x7b"data": []\x7d through format_response yields exactly
"No results found." (the empty-list branch returns its sentinel before
the title header is used) and raises nothing. -/
theorem c9_empty_list_projection (title : String) :
    format_response (Json.obj [("data", Json.arr [])]) title
      = Except.ok "No results found." := rfl

/-- C7: for every path already starting with the "/api" namespace segment
and for both values of the prefix flag, request builds the absolute URL
as the base origin concatenated with the path unchanged, never
double-prepending the segment. -/
theorem c7_idempotent_prefixing (s : ClientState) (path : String)
    (now : PyDateTime) (ex : ExchangeOutcome) (out : ReqOutcome)
    (h : pyStartsWith path "/api" = true) :
    (request s path true now ex out).2.1 = s.apiBase ++ path ∧
    (request s path false now ex out).2.1 = s.apiBase ++ path := by
  constructor <;>
    · show buildUrl s.apiBase path _ = s.apiBase ++ path
      simp [buildUrl, h]

/-- Witness for C7 at the concrete path "/api/company". -/
theorem c7_idempotent_prefixing_witness :
    (pyStartsWith "/api/company" "/api" = true) ∧
    (request sampleClient "/api/company" true tMin30 okBody ReqOutcome.timeout).2.1
      = sampleClient.apiBase ++ "/api/company" :=
  ⟨by decide,
   (c7_idempotent_prefixing sampleClient "/api/company" tMin30 okBody
      ReqOutcome.timeout (by decide)).1⟩

/-- C10 (implicit): the namespace check is a plain string-prefix test, so
any path whose first four characters are "/api" — including paths such as
"/apikeys" that are not under the namespace — is passed through
unchanged, for both values of the prefix flag, and the request URL is the
base origin concatenated with the path as given. -/
theorem c10_plain_string_test (s : ClientState) (path : String) (usePfx : Bool)
    (now : PyDateTime) (ex : ExchangeOutcome) (out : ReqOutcome)
    (h : pyStartsWith path "/api" = true) :
    (request s path usePfx now ex out).2.1 = s.apiBase ++ path := by
  show buildUrl s.apiBase path usePfx = s.apiBase ++ path
  simp [buildUrl, h]

/-- Witness for C10 at the concrete path "/apikeys", which starts with
"/api" but is not under the API namespace. -/
theorem c10_plain_string_test_witness :
    (pyStartsWith "/apikeys" "/api" = true) ∧
    (request sampleClient "/apikeys" true tMin30 okBody ReqOutcome.timeout).2.1
      = sampleClient.apiBase ++ "/apikeys" :=
  ⟨by decide,
   c10_plain_string_test sampleClient "/apikeys" true tMin30 okBody
     ReqOutcome.timeout (by decide)⟩

/-- C6: for a non-empty api key without the "fsk_" prefix, every call to
ensureToken sets the bearer token to exactly that key, performs zero
network calls and leaves the expiry absent — and the resulting state is a
fixed point, so every subsequent call behaves identically and no refresh
is ever triggered. -/
theorem c6_passthrough (s : ClientState) (now : PyDateTime) (o : ExchangeOutcome)
    (h1 : s.apiKey ≠ "") (h2 : pyStartsWith s.apiKey "fsk_" = false)
    (h3 : s.tokenExpiresAt = none) :
    ensureToken s now o = ({ s with jwt := Json.str s.apiKey }, 0) ∧
    ∀ (now2 : PyDateTime) (o2 : ExchangeOutcome),
      ensureToken { s with jwt := Json.str s.apiKey } now2 o2
        = ({ s with jwt := Json.str s.apiKey }, 0) := by
  constructor
  · simp [ensureToken, tokenValid, h1, h2, h3]
  · intro now2 o2
    simp [ensureToken, tokenValid, h1, h2, h3]

/-- C1: evaluation of the exchange branch at a successful 200 response
received at 12:30:00 UTC.  The access token is stored, but the expiry
computation datetime.replace(minute=30+50) raises ValueError (minute must
be in 0..59), which the enclosing except swallows, so tokenExpiresAt is
left unset — the claim's "expiresAt = now + 50 minutes for every possible
current time" fails for every current time with minute ≥ 10.  For
contrast, at 12:05:00 the same exchange sets the expiry to 12:55:00,
which is exactly 50 minutes ahead. -/
theorem c1_expiry_left_unset_at_minute_30 :
    (ensureToken sampleClient tMin30 okBody).1.jwt = Json.str "jwt-tok" ∧
    (ensureToken sampleClient tMin30 okBody).1.tokenExpiresAt = none ∧
    (ensureToken sampleClient tMin05 okBody).1.tokenExpiresAt
      = some ⟨19723, 12, 55, 0, 0⟩ ∧
    (some ⟨19723, 12, 55, 0, 0⟩ : Option PyDateTime).map PyDateTime.toMicro
      = some (tMin05.toMicro + 50 * 60 * 1000000) :=
  ⟨rfl, rfl, rfl, rfl⟩

/-- C2: violation of the credential-state invariant.  Starting from a
fresh client, one successful exchange performed at 09:45:00 UTC leaves
the state with a truthy exchange-derived bearer token while
tokenExpiresAt is absent (the minute-overflow ValueError was swallowed
after the token had already been assigned). -/
theorem c2_invariant_violated :
    jsonTruthy (ensureToken sampleClient tMin45 okBody2).1.jwt = true ∧
    (ensureToken sampleClient tMin45 okBody2).1.jwt = Json.str "tok2" ∧
    (ensureToken sampleClient tMin45 okBody2).1.tokenExpiresAt = none :=
  ⟨rfl, rfl, rfl⟩

/-- Counterexample to C3: with the claim's exact 429 body (whose detail
object stores the timestamp under the camelCase key "resetsAt"), the
rate-limit block returned by request carries limit 100 and used 100 but
resets_at "End of day" — the source reads the snake_case key "resets_at",
so the block does not equal the claimed one under any key spelling. -/
theorem c3_counterexample :
    rateLimitOf r3 = Json.obj
      [("limit", Json.num 100), ("used", Json.num 100),
       ("resets_at", Json.str "End of day")] ∧
    rateLimitOf r3 ≠ Json.obj
      [("limit", Json.num 100), ("used", Json.num 100),
       ("resetsAt", Json.str "2024-01-02T00:00:00Z")] := by
  refine ⟨rfl, ?_⟩
  intro h
  rw [show rateLimitOf r3 = Json.obj
      [("limit", Json.num 100), ("used", Json.num 100),
       ("resets_at", Json.str "End of day")] from rfl] at h
  injection h with hlist
  injection hlist with _ hlist1
  injection hlist1 with _ hlist2
  injection hlist2 with hpair _
  injection hpair with hkey _
  exact absurd hkey (by decide)

/-- C3 as amended: for the stated 429 body, the failure result's message
contains "Daily limit reached" and its rate-limit block equals
\x7blimit: 100, used: 100, resets_at: "End of day"\x7d — the resets value
is the default because the code looks up the snake_case key "resets_at"
while the body spells it "resetsAt". -/
theorem c3_amended :
    (∃ pre post, errorTextOf r3 = Json.str (pre ++ "Daily limit reached" ++ post)) ∧
    rateLimitOf r3 = Json.obj
      [("limit", Json.num 100), ("used", Json.num 100),
       ("resets_at", Json.str "End of day")] :=
  ⟨⟨"Rate limit exceeded: ", "", rfl⟩, rfl⟩

/-- Counterexample to C5: a 200 exchange response whose body is a dict
without the expected token field does not leave the prior bearer token
untouched — line 72 assigns token_data.get("access_token"), i.e. None,
over it.  Starting from a client holding "old-token" with an expired
expiry, the exchange clobbers the token to None. -/
theorem c5_counterexample :
    (ensureToken staleState tMin30 emptyOk200).1.jwt = Json.null ∧
    staleState.jwt = Json.str "old-token" ∧
    Json.null ≠ Json.str "old-token" :=
  ⟨rfl, rfl, fun h => Json.noConfusion h⟩

/-- An api key with the "fsk_" prefix is non-empty. -/
theorem ne_empty_of_fsk (s : String) (h : pyStartsWith s "fsk_" = true) :
    s ≠ "" := by
  intro he
  subst he
  exact absurd h (by decide)

/-- C5 as amended: with an exchangeable key, (i) a transport error during
the exchange, (ii) any non-200 response, and (iii) a 200 response with an
undecodable body all leave the credential state exactly unchanged, and
ensureToken returns without raising (the embedding is total); but (iv) a
decodable 200 dict body whose (possibly unwrapped) token object lacks a
truthy access_token value sets the bearer token to that value (None for a
missing field), discarding any prior token, while leaving the expiry
unchanged. -/
theorem c5_amended (s : ClientState) (now : PyDateTime)
    (hk : pyStartsWith s.apiKey "fsk_" = true) :
    ((ensureToken s now ExchangeOutcome.err).1 = s) ∧
    (∀ (status : Nat) (body : Except String Json) (text : String), status ≠ 200 →
      (ensureToken s now (ExchangeOutcome.resp status body text)).1 = s) ∧
    (∀ (e text : String),
      (ensureToken s now (ExchangeOutcome.resp 200 (Except.error e) text)).1 = s) ∧
    (∀ (fields tfields : List (String × Json)) (text : String),
      tokenValid s now = false →
      pyGet fields "token" (Json.obj fields) = Json.obj tfields →
      jsonTruthy (pyGet tfields "access_token" Json.null) = false →
      (ensureToken s now
          (ExchangeOutcome.resp 200 (Except.ok (Json.obj fields)) text)).1
        = { s with jwt := pyGet tfields "access_token" Json.null }) := by
  have hne : s.apiKey ≠ "" := ne_empty_of_fsk s.apiKey hk
  refine ⟨?_, ?_, ?_, ?_⟩
  · simp [ensureToken, exchange, hk, hne, apply_ite]
  · intro status body text hstat
    simp [ensureToken, exchange, hk, hne, hstat, apply_ite]
  · intro e text
    simp [ensureToken, exchange, hk, hne, apply_ite]
  · intro fields tfields text hv hw ht
    simp [ensureToken, exchange, hk, hne, hv, hw, ht]

/-- Witness for C5 (amended): the hypotheses hold for the concrete stale
client and the state is unchanged by a failing (transport-error)
exchange. -/
theorem c5_amended_witness :
    (pyStartsWith staleState.apiKey "fsk_" = true) ∧
    (ensureToken staleState tMin30 ExchangeOutcome.err).1 = staleState :=
  ⟨by decide, (c5_amended staleState tMin30 (by decide)).1⟩

/-- Witness for C6 on the concrete pass-through client. -/
theorem c6_passthrough_witness :
    (passClient.apiKey ≠ "" ∧ pyStartsWith passClient.apiKey "fsk_" = false ∧
      passClient.tokenExpiresAt = none) ∧
    ensureToken passClient tMin30 ExchangeOutcome.err
      = ({ passClient with jwt := Json.str passClient.apiKey }, 0) :=
  ⟨⟨by decide, by decide, rfl⟩,
   (c6_passthrough passClient tMin30 ExchangeOutcome.err
      (by decide) (by decide) rfl).1⟩

/-- Whether a result value is a failure record: a dict with
"success": False and an "error" entry. -/
def isFailureRecord (j : Json) : Bool :=
  match j with
  | Json.obj fields =>
    (match lookupField fields "success" with
     | some (Json.bool false) => true
     | _ => false)
    && (lookupField fields "error").isSome
  | _ => false

/-- Every generic failure dictionary is a failure record. -/
theorem errResult_isFailure (m : String) : isFailureRecord (errResult m) = true := rfl

/-- Every value produced by the 429 handler is a failure record. -/
theorem handle429_isFailure (body : Except String Json) :
    isFailureRecord (handle429 body) = true := by
  unfold handle429
  cases body with
  | error e => rfl
  | ok bj =>
    cases bj <;> try rfl
    next fields =>
      dsimp only
      cases hpg : pyGet fields "detail" (Json.obj []) <;> simp only [hpg] <;> rfl

/-- C4: for every input and every upstream outcome — any status (429,
other errors, success), an undecodable body, a timeout, a transport
error, any other exception, and any exchange outcome inside the
triggered ensureToken — request returns a result value that is either
the decoded success body passed through verbatim or a failure record;
the embedding is a total function, mirroring that no exception crosses
the execute boundary. -/
theorem c4_always_normalized_result (s : ClientState) (endpoint : String)
    (usePfx : Bool) (now : PyDateTime) (ex : ExchangeOutcome) (out : ReqOutcome) :
    (∃ status body text,
        out = ReqOutcome.resp status (Except.ok body) text ∧
        status ≠ 429 ∧ status < 400 ∧
        (request s endpoint usePfx now ex out).2.2 = body) ∨
    isFailureRecord (request s endpoint usePfx now ex out).2.2 = true := by
  cases out with
  | timeout => exact Or.inr (errResult_isFailure _)
  | transportErr m => exact Or.inr (errResult_isFailure _)
  | otherErr m => exact Or.inr (errResult_isFailure _)
  | resp status body text =>
    show _ ∨ isFailureRecord (handleOutcome (ensureToken s now ex).1
      (ReqOutcome.resp status body text)).2 = true
    by_cases h429 : status = 429
    · refine Or.inr ?_
      subst h429
      simp only [handleOutcome, if_pos rfl]
      exact handle429_isFailure body
    · by_cases h400 : 400 ≤ status
      · refine Or.inr ?_
        simp only [handleOutcome, if_neg h429, if_pos h400]
        exact errResult_isFailure _
      · cases body with
        | error e =>
          refine Or.inr ?_
          simp only [handleOutcome, if_neg h429, if_neg h400]
          exact errResult_isFailure _
        | ok result =>
          refine Or.inl ⟨status, result, text, rfl, h429, by omega, ?_⟩
          show (handleOutcome (ensureToken s now ex).1
            (ReqOutcome.resp status (Except.ok result) text)).2 = result
          simp only [handleOutcome, if_neg h429, if_neg h400]
          cases result <;> rfl

/-- The exchange block never touches _rate_limit_info. -/
theorem exchange_rateLimitInfo (s : ClientState) (now : PyDateTime)
    (o : ExchangeOutcome) :
    (exchange s now o).rateLimitInfo = s.rateLimitInfo := by
  cases o with
  | err => rfl
  | resp status body text =>
    simp only [exchange]
    split
    · cases body with
      | error e => rfl
      | ok data =>
        cases data <;> try rfl
        next fields =>
          cases hpg : pyGet fields "token" (Json.obj fields)
          all_goals simp only [hpg]
          next tfields =>
            split
            · split <;> rfl
            · rfl
    · rfl

/-- _ensure_jwt_token never touches _rate_limit_info. -/
theorem ensureToken_rateLimitInfo (s : ClientState) (now : PyDateTime)
    (o : ExchangeOutcome) :
    ((ensureToken s now o).1).rateLimitInfo = s.rateLimitInfo := by
  unfold ensureToken
  split
  · rfl
  · split
    · rfl
    · split
      · exact exchange_rateLimitInfo s now o
      · rfl

/-- Spec-side characterization of the snapshot update (C3 of spec state
section): the snapshot is replaced exactly when the outcome is a success
response (status < 400) whose decoded body is a dict containing a
top-level "rate_limit" key, and the new value is that entry. -/
def specRateLimitUpdate (out : ReqOutcome) : Option Json :=
  match out with
  | ReqOutcome.resp status (Except.ok (Json.obj fields)) _ =>
      if status < 400 then lookupField fields "rate_limit" else none
  | _ => none

/-- The response-classification block updates _rate_limit_info exactly
as specRateLimitUpdate prescribes. -/
theorem handleOutcome_state (s1 : ClientState) (out : ReqOutcome) :
    ((handleOutcome s1 out).1).rateLimitInfo
      = (specRateLimitUpdate out).getD s1.rateLimitInfo := by
  cases out with
  | timeout => rfl
  | transportErr m => rfl
  | otherErr m => rfl
  | resp status body text =>
    cases body with
    | error e =>
      simp only [handleOutcome, specRateLimitUpdate, Option.getD_none]
      split
      · rfl
      · split
        · rfl
        · rfl
    | ok data =>
      cases data with
      | obj fields =>
        simp only [handleOutcome, specRateLimitUpdate]
        by_cases h429 : status = 429
        · rw [if_pos h429, if_neg (by omega : ¬ status < 400)]
          simp
        · rw [if_neg h429]
          by_cases h400 : 400 ≤ status
          · rw [if_pos h400, if_neg (by omega : ¬ status < 400)]
            simp
          · rw [if_neg h400, if_pos (by omega : status < 400)]
            cases hrl : lookupField fields "rate_limit" with
            | some v => simp [hrl]
            | none => simp [hrl]
      | null =>
        simp only [handleOutcome, specRateLimitUpdate, Option.getD_none]
        split
        · rfl
        · split
          · rfl
          · rfl
      | bool b =>
        simp only [handleOutcome, specRateLimitUpdate, Option.getD_none]
        split
        · rfl
        · split
          · rfl
          · rfl
      | num n =>
        simp only [handleOutcome, specRateLimitUpdate, Option.getD_none]
        split
        · rfl
        · split
          · rfl
          · rfl
      | str v =>
        simp only [handleOutcome, specRateLimitUpdate, Option.getD_none]
        split
        · rfl
        · split
          · rfl
          · rfl
      | arr items =>
        simp only [handleOutcome, specRateLimitUpdate, Option.getD_none]
        split
        · rfl
        · split
          · rfl
          · rfl

/-- C8: for every call to request, the resulting _rate_limit_info equals
the body's rate_limit entry exactly when the outcome is a success
(status < 400) whose decoded body is a dict with a top-level rate_limit
key; on every other outcome (429, other error statuses, timeout,
transport error, undecodable or non-dict or keyless body) it retains its
previous value, and the exchange inside ensureToken never touches it. -/
theorem c8_snapshot_update (s : ClientState) (endpoint : String) (usePfx : Bool)
    (now : PyDateTime) (ex : ExchangeOutcome) (out : ReqOutcome) :
    ((request s endpoint usePfx now ex out).1).rateLimitInfo
      = (specRateLimitUpdate out).getD s.rateLimitInfo := by
  have h1 : ((request s endpoint usePfx now ex out).1).rateLimitInfo
      = ((handleOutcome (ensureToken s now ex).1 out).1).rateLimitInfo := rfl
  rw [h1, handleOutcome_state, ensureToken_rateLimitInfo]

end Finscreener
